import Mathlib

/-!
Verification of the upload/download service in `src/main.py`.

The program is a FastAPI application with three handlers:
* `main` serves a fixed HTML form;
* `upload_file` writes the uploaded byte stream to `UPLOAD_DIR / file.filename`
  (pathlib join), overwriting any existing file at that path;
* `download_image` returns the contents of `UPLOAD_DIR / filename` as a file
  response, or a framework-level not-found condition when the file is absent.

The embedding models Python `pathlib` paths (parsing, the `/` join operator,
and operating-system resolution of `..` segments at open time relative to the
process working directory), a filesystem as an association list from resolved
absolute paths to byte contents, and the handlers as pure state transformers.
-/

/-- Byte contents of a file, one `Nat` per byte. -/
abbrev Bytes := List Nat

/-- A fully resolved absolute path: the list of its segments from the
filesystem root (no empty, `.` or `..` segments remain after resolution). -/
abbrev AbsPath := List String

/-- Split a character list on a separator character; `[[]]` on the empty list,
mirroring how `pathlib` tokenises a path string on `/`. -/
def splitOnChar (sep : Char) : List Char → List (List Char)
  | [] => [[]]
  | c :: cs =>
    let rest := splitOnChar sep cs
    if c = sep then [] :: rest
    else
      match rest with
      | [] => [[c]]
      | seg :: segs => (c :: seg) :: segs

/-- A `pathlib.Path` value: whether the path is absolute, and its segments.
As in `pathlib`, empty and `.` segments are dropped at parse time while `..`
segments are kept (they are only resolved by the operating system when the
path is opened). -/
structure PyPath where
  absolute : Bool
  segments : List String
deriving DecidableEq

/-- `pathlib.Path(s)`: absolute iff the string starts with `/`; segments are
the non-empty, non-`.` chunks between `/` separators. -/
def PyPath.parse (s : String) : PyPath :=
  { absolute := s.data.head? == some '/'
    segments :=
      ((splitOnChar '/' s.data).filter
        (fun seg => !seg.isEmpty && seg != ['.'])).map String.mk }

/-- The `pathlib` join operator `p / name` (`Path.__truediv__`): if `name` is
an absolute path it replaces `p` entirely; otherwise its segments are appended
to those of `p`. -/
def PyPath.join (p : PyPath) (name : String) : PyPath :=
  let q := PyPath.parse name
  if q.absolute then q else { absolute := p.absolute, segments := p.segments ++ q.segments }

/-- Operating-system resolution of a segment list against a base directory:
`..` pops the last segment of the base (staying at the root when already
there), every other segment descends. -/
def resolveFrom (base : AbsPath) : List String → AbsPath
  | [] => base
  | seg :: rest =>
    if seg = ".." then resolveFrom base.dropLast rest
    else resolveFrom (base ++ [seg]) rest

/-- The absolute path a `PyPath` denotes when opened by a process whose
working directory is `cwd`: relative paths resolve against `cwd`, absolute
paths against the filesystem root. -/
def PyPath.resolve (p : PyPath) (cwd : AbsPath) : AbsPath :=
  resolveFrom (if p.absolute then [] else cwd) p.segments

/-- `dir` is an ancestor-or-self of `p` (segment-wise). Used to state whether
a resolved path lies inside the storage directory. -/
def underDir : AbsPath → AbsPath → Bool
  | [], _ => true
  | _, [] => false
  | d :: ds, p :: ps => d == p && underDir ds ps

/-- The filesystem: an association list from resolved absolute paths to byte
contents, one entry per existing regular file. -/
abbrev FS := List (AbsPath × Bytes)

/-- Read the contents of the file at `p`, `none` when no such file exists. -/
def FS.read (fs : FS) (p : AbsPath) : Option Bytes :=
  match fs.find? (fun e => e.1 == p) with
  | some e => some e.2
  | none => none

/-- Create or overwrite the file at `p` with contents `b` (the effect of
`open("wb")` followed by a full write): afterwards exactly one file exists at
`p` and every other path is untouched. -/
def FS.write (fs : FS) (p : AbsPath) (b : Bytes) : FS :=
  (p, b) :: fs.filter (fun e => e.1 != p)

/-- `UPLOAD_DIR = Path("uploads")` from `src/main.py` line 10. -/
def UPLOAD_DIR : PyPath := PyPath.parse "uploads"

/-- `ALLOWED_EXTENSIONS` from `src/main.py` line 15 — declared, never read by
any handler. -/
def ALLOWED_EXTENSIONS : List String := ["png", "jpg", "jpeg", "gif", "webp"]

/-- `MAX_FILE_SIZE = 10 * 1024 * 1024` from `src/main.py` line 16 — declared,
never read by any handler. -/
def MAX_FILE_SIZE : Nat := 10 * 1024 * 1024

/-- The extension of a filename: the part after the last `.`, empty when the
name contains no `.`. Used only to state the (unenforced) allow-list claim;
the source never computes an extension. -/
def fileExt (f : String) : String :=
  match splitOnChar '.' f.data with
  | [] => ""
  | [_] => ""
  | parts => String.mk (parts.getLastD [])

/-- `Path.mkdir(exist_ok)` on a set of existing directories: an existing
directory is an error only when `exist_ok` is false; otherwise the directory
is added. (Parent directories are not modelled: `uploads` sits directly under
the working directory, which exists.) -/
def mkdirModel (dirs : List AbsPath) (p : AbsPath) (exist_ok : Bool) :
    Except String (List AbsPath) :=
  if dirs.contains p then
    if exist_ok then Except.ok dirs else Except.error "FileExistsError"
  else Except.ok (p :: dirs)

/-- Process startup, `src/main.py` line 12: `UPLOAD_DIR.mkdir(exist_ok=True)`
executed once at import time, before any request is served. -/
def startup (cwd : AbsPath) (dirs : List AbsPath) : Except String (List AbsPath) :=
  mkdirModel dirs (UPLOAD_DIR.resolve cwd) true

/-- The JSON object returned by `upload_file` (`src/main.py` lines 69–72): it
has exactly the keys `message` and `filename`, both strings. -/
structure UploadResponse where
  message : String
  filename : String
deriving DecidableEq

/-- `upload_file` (`src/main.py` lines 48–72): build
`file_path = UPLOAD_DIR / file.filename`, open it in binary-write mode and
copy the uploaded stream into it, then return the confirmation object. The
handler consults neither `ALLOWED_EXTENSIONS` nor `MAX_FILE_SIZE`. -/
def upload_file (cwd : AbsPath) (fs : FS) (filename : String) (content : Bytes) :
    FS × UploadResponse :=
  let file_path := UPLOAD_DIR.join filename
  (fs.write (file_path.resolve cwd) content,
   { message := "업로드 완료", filename := filename })

/-- An HTTP response with a status code and a typed body. -/
structure HttpResponse (β : Type) where
  status : Nat
  body : β
deriving DecidableEq

/-- Modelled from the spec: FastAPI serialises the dict returned by
`upload_file` as the body of a 200 JSON response (`POST /upload` → 200); the
framework itself is not part of `src/`. -/
def serveUpload (cwd : AbsPath) (fs : FS) (filename : String) (content : Bytes) :
    FS × HttpResponse UploadResponse :=
  let r := upload_file cwd fs filename content
  (r.1, { status := 200, body := r.2 })

/-- The outcome of a download request: the file bytes together with the
filename suggested to the client via content-disposition, or a not-found
response. -/
inductive DownloadResponse where
  | fileContent : Bytes → String → DownloadResponse
  | notFound : DownloadResponse
deriving DecidableEq

/-- `download_image` (`src/main.py` lines 75–85): build
`file_path = UPLOAD_DIR / filename` and return
`FileResponse(path=file_path, filename=filename)`. The not-found branch is
modelled from the spec: the handler performs no existence check, and the
framework `FileResponse` (not part of `src/`) surfaces a missing file as a
framework-level not-found condition. -/
def download_image (cwd : AbsPath) (fs : FS) (filename : String) : DownloadResponse :=
  let file_path := UPLOAD_DIR.join filename
  match fs.read (file_path.resolve cwd) with
  | some content => DownloadResponse.fileContent content filename
  | none => DownloadResponse.notFound

/-- A filename is plain when it parses to the single relative segment equal to
itself and is not the parent-directory reference (e.g. `a.png`). -/
def plainName (f : String) : Bool :=
  (PyPath.parse f).absolute == false &&
    (PyPath.parse f).segments == [f] &&
    f != ".."

theorem FS.read_write_self (fs : FS) (p : AbsPath) (b : Bytes) :
    (fs.write p b).read p = some b := by
  simp [FS.read, FS.write]

theorem find?_filter_other (fs : FS) (p q : AbsPath) (h : p ≠ q) :
    (fs.filter (fun e => e.1 != p)).find? (fun e => e.1 == q) =
      fs.find? (fun e => e.1 == q) := by
  induction fs with
  | nil => rfl
  | cons e rest ih =>
    by_cases he : e.1 = q
    · have hqp : q ≠ p := fun hEq => h hEq.symm
      simp [List.filter_cons, List.find?_cons, he, hqp]
    · by_cases hep : e.1 = p
      · have : (e.1 != p) = false := by simp [hep]
        simp [List.filter_cons, this, List.find?_cons, he, ih]
      · have : (e.1 != p) = true := by simp [hep]
        simp [List.filter_cons, this, List.find?_cons, he, ih]

theorem FS.read_write_other (fs : FS) (p q : AbsPath) (b : Bytes) (h : p ≠ q) :
    (fs.write p b).read q = fs.read q := by
  have hpq : (p == q) = false := by simp [h]
  simp [FS.read, FS.write, List.find?_cons, hpq, find?_filter_other fs p q h]

theorem FS.write_all_at_path (fs : FS) (p : AbsPath) (b : Bytes) :
    (fs.write p b).all (fun e => e.1 != p || e.2 == b) = true := by
  simp only [FS.write, List.all_cons]
  rw [Bool.and_eq_true]
  constructor
  · simp
  · rw [List.all_eq_true]
    intro e hmem
    have := (List.mem_filter.mp hmem).2
    simp only [this, Bool.true_or]

theorem uploadDir_resolve (cwd : AbsPath) : UPLOAD_DIR.resolve cwd = cwd ++ ["uploads"] := by
  have h1 : UPLOAD_DIR = { absolute := false, segments := ["uploads"] } := by decide
  have h2 : ("uploads" : String) ≠ ".." := by decide
  simp [h1, PyPath.resolve, resolveFrom, h2]

theorem resolve_join_plain (cwd : AbsPath) (f : String) (h : plainName f = true) :
    (UPLOAD_DIR.join f).resolve cwd = cwd ++ ["uploads", f] := by
  simp only [plainName, Bool.and_eq_true, beq_iff_eq, bne_iff_ne, ne_eq] at h
  obtain ⟨⟨habs, hseg⟩, hne⟩ := h
  have h1 : UPLOAD_DIR = { absolute := false, segments := ["uploads"] } := by decide
  have h2 : ("uploads" : String) ≠ ".." := by decide
  simp [PyPath.join, h1, habs, hseg, PyPath.resolve, resolveFrom, h2, hne]

example : plainName "a.png" = true := by decide
example : plainName "" = false := by decide
example : plainName ".." = false := by decide
example : plainName "a/b" = false := by decide
example : PyPath.parse "uploads" = { absolute := false, segments := ["uploads"] } := by decide
example : (UPLOAD_DIR.join "../x").resolve ["srv"] = ["srv", "x"] := by decide
example : (UPLOAD_DIR.join "/etc/passwd").resolve ["srv"] = ["etc", "passwd"] := by decide
example : upload_file [] [] "a.png" [1, 2] =
    ([(["uploads", "a.png"], [1, 2])],
     { message := "업로드 완료", filename := "a.png" }) := by decide
example : download_image [] [(["uploads", "a.png"], [1, 2])] "a.png" =
    DownloadResponse.fileContent [1, 2] "a.png" := by decide

/-- C1: For every plain filename `f` and byte content `X`, uploading a file
named `f` with content `X` and then requesting a download of `f` returns
exactly the bytes `X`, byte-for-byte (together with `f` as the suggested
filename). -/
theorem upload_then_download_roundtrip (cwd : AbsPath) (fs : FS) (f : String)
    (X : Bytes) (_h : plainName f = true) :
    download_image cwd (upload_file cwd fs f X).1 f =
      DownloadResponse.fileContent X f := by
  simp [download_image, upload_file, FS.read_write_self]

/-- Witness for C1 at `f = "a.png"`, `X = [7, 8]`. -/
theorem upload_then_download_roundtrip_holds :
    plainName "a.png" = true ∧
      download_image [] (upload_file [] [] "a.png" [7, 8]).1 "a.png" =
        DownloadResponse.fileContent [7, 8] "a.png" :=
  ⟨by decide, upload_then_download_roundtrip [] [] "a.png" [7, 8] (by decide)⟩

/-- C2: For every filename `f` and contents `X1` then `X2`, uploading `f` with
`X1` and then `f` with `X2` leaves the store holding only `X2` at the path
resolved for `f` (every entry at that path carries `X2`), and a subsequent
download of `f` returns `X2`. -/
theorem upload_overwrite_last_write_wins (cwd : AbsPath) (fs : FS) (f : String)
    (X1 X2 : Bytes) :
    download_image cwd (upload_file cwd (upload_file cwd fs f X1).1 f X2).1 f =
        DownloadResponse.fileContent X2 f ∧
      ((upload_file cwd (upload_file cwd fs f X1).1 f X2).1).all
          (fun e => e.1 != (UPLOAD_DIR.join f).resolve cwd || e.2 == X2) = true := by
  constructor
  · simp [download_image, upload_file, FS.read_write_self]
  · simp only [upload_file]
    exact FS.write_all_at_path _ _ _

/-- C3: For every filename `f` with no corresponding file at the resolved
path, a download request for `f` returns the not-found response. -/
theorem download_missing_returns_notFound (cwd : AbsPath) (fs : FS) (f : String)
    (h : fs.read ((UPLOAD_DIR.join f).resolve cwd) = none) :
    download_image cwd fs f = DownloadResponse.notFound := by
  simp [download_image, h]

/-- Witness for C3: downloading `"a.png"` from an empty store. -/
theorem download_missing_returns_notFound_holds :
    FS.read [] ((UPLOAD_DIR.join "a.png").resolve []) = none ∧
      download_image [] [] "a.png" = DownloadResponse.notFound :=
  ⟨by decide, download_missing_returns_notFound [] [] "a.png" (by decide)⟩

/-- C4: The filename `"../secret"` resolves to a path outside the storage
directory, and the download handler returns the content of that outside file;
no guard prevents it. Here the working directory is `/srv`, the storage
directory is `/srv/uploads`, and `/srv/secret` is a file not stored under it. -/
theorem download_traversal_escapes_storage :
    (UPLOAD_DIR.join "../secret").resolve ["srv"] = ["srv", "secret"] ∧
      underDir (UPLOAD_DIR.resolve ["srv"])
        ((UPLOAD_DIR.join "../secret").resolve ["srv"]) = false ∧
      download_image ["srv"] [(["srv", "secret"], [42])] "../secret" =
        DownloadResponse.fileContent [42] "../secret" := by
  refine ⟨by decide, by decide, by decide⟩

/-- C5: For every client-supplied filename `f` (no sanitization: names with
path separators, empty names and reserved names are taken as-is), the upload
handler writes the uploaded bytes to the path `UPLOAD_DIR / f` (pathlib join),
overwriting any existing file at that path, so that a read of that path
afterwards yields exactly the uploaded bytes. -/
theorem upload_writes_to_joined_path (cwd : AbsPath) (fs : FS) (f : String)
    (X : Bytes) :
    (upload_file cwd fs f X).1 = fs.write ((UPLOAD_DIR.join f).resolve cwd) X ∧
      ((upload_file cwd fs f X).1).read ((UPLOAD_DIR.join f).resolve cwd) = some X :=
  ⟨rfl, FS.read_write_self _ _ _⟩

/-- C6: No validation is enforced on upload: even when the extension of `f` is
outside `ALLOWED_EXTENSIONS` or the content exceeds `MAX_FILE_SIZE`, the
upload proceeds exactly as always — the bytes are written and the success
response is returned; the declared constants are never consulted by
`upload_file`. -/
theorem upload_skips_declared_validation (cwd : AbsPath) (fs : FS) (f : String)
    (X : Bytes)
    (_h : ALLOWED_EXTENSIONS.contains (fileExt f) = false ∨ MAX_FILE_SIZE < X.length) :
    upload_file cwd fs f X =
      (fs.write ((UPLOAD_DIR.join f).resolve cwd) X,
       { message := "업로드 완료", filename := f }) := rfl

/-- Witness for C6: `"virus.exe"` has a disallowed extension and still
uploads. -/
theorem upload_skips_declared_validation_holds :
    ALLOWED_EXTENSIONS.contains (fileExt "virus.exe") = false ∧
      upload_file [] [] "virus.exe" [0] =
        (FS.write [] ((UPLOAD_DIR.join "virus.exe").resolve []) [0],
         { message := "업로드 완료", filename := "virus.exe" }) :=
  ⟨by decide,
   upload_skips_declared_validation [] [] "virus.exe" [0] (Or.inl (by decide))⟩

/-- C7: Every successful upload responds with status 200 and a JSON object
having exactly the keys `message` (a fixed string) and `filename` (the stored
filename `f`) — `UploadResponse` has exactly those two fields. -/
theorem serveUpload_status_and_body (cwd : AbsPath) (fs : FS) (f : String)
    (X : Bytes) :
    (serveUpload cwd fs f X).2 =
      { status := 200, body := { message := "업로드 완료", filename := f } } := rfl

/-- C8: For every working directory and every prior set of directories,
startup succeeds — also when the storage directory already exists — and
afterwards the storage directory `cwd/uploads` (the resolution of the relative
path `uploads` against the process working directory) exists. -/
theorem startup_ensures_storage_dir (cwd : AbsPath) (dirs : List AbsPath) :
    UPLOAD_DIR.resolve cwd = cwd ++ ["uploads"] ∧
      ∃ ds, startup cwd dirs = Except.ok ds ∧
        ds.contains (cwd ++ ["uploads"]) = true := by
  refine ⟨uploadDir_resolve cwd, ?_⟩
  unfold startup mkdirModel
  rw [uploadDir_resolve cwd]
  by_cases hmem : dirs.contains (cwd ++ ["uploads"]) = true
  · have hmem2 : cwd ++ ["uploads"] ∈ dirs := by simpa using hmem
    exact ⟨dirs, by simp [hmem2], hmem⟩
  · refine ⟨(cwd ++ ["uploads"]) :: dirs, ?_⟩
    simp only [hmem]
    simp at hmem
    simp [hmem]

/-- C9: Frame property of upload: for plain filenames `f` and `g` with
`g ≠ f`, uploading `f` leaves the file stored under `g` unchanged — both its
raw contents and the result of downloading `g`. -/
theorem upload_preserves_other_files (cwd : AbsPath) (fs : FS) (f g : String)
    (X : Bytes) (hf : plainName f = true) (hg : plainName g = true)
    (hne : g ≠ f) :
    ((upload_file cwd fs f X).1).read ((UPLOAD_DIR.join g).resolve cwd) =
        fs.read ((UPLOAD_DIR.join g).resolve cwd) ∧
      download_image cwd (upload_file cwd fs f X).1 g = download_image cwd fs g := by
  have hpath : (UPLOAD_DIR.join f).resolve cwd ≠ (UPLOAD_DIR.join g).resolve cwd := by
    rw [resolve_join_plain cwd f hf, resolve_join_plain cwd g hg]
    intro hEq
    have h3 := List.append_cancel_left hEq
    have h4 : f = g := by simpa using h3
    exact hne h4.symm
  have hread : ((upload_file cwd fs f X).1).read ((UPLOAD_DIR.join g).resolve cwd) =
      fs.read ((UPLOAD_DIR.join g).resolve cwd) := by
    simp only [upload_file]
    exact FS.read_write_other _ _ _ _ hpath
  exact ⟨hread, by simp [download_image, hread]⟩

/-- Witness for C9: uploading `"a.png"` leaves the stored `"b.png"`
untouched. -/
theorem upload_preserves_other_files_holds :
    plainName "a.png" = true ∧ plainName "b.png" = true ∧
      (((upload_file [] [(["uploads", "b.png"], [5])] "a.png" [1]).1).read
            ((UPLOAD_DIR.join "b.png").resolve []) =
          FS.read [(["uploads", "b.png"], [5])] ((UPLOAD_DIR.join "b.png").resolve []) ∧
        download_image [] (upload_file [] [(["uploads", "b.png"], [5])] "a.png" [1]).1
            "b.png" =
          download_image [] [(["uploads", "b.png"], [5])] "b.png") :=
  ⟨by decide, by decide,
   upload_preserves_other_files [] [(["uploads", "b.png"], [5])] "a.png" "b.png" [1]
     (by decide) (by decide) (by decide)⟩

/-- C10: Both handlers build the target path as `UPLOAD_DIR / name` with
pathlib join semantics, so an absolute client-supplied `name` discards the
storage-directory prefix entirely: the join equals the parsed absolute path,
the upload writes to its root-resolved location anywhere on disk, and the
download result does not depend on the working directory at all. -/
theorem absolute_filename_discards_storage_dir (cwd cwd2 : AbsPath) (fs : FS)
    (name : String) (X : Bytes) (h : (PyPath.parse name).absolute = true) :
    UPLOAD_DIR.join name = PyPath.parse name ∧
      (upload_file cwd fs name X).1 = fs.write ((PyPath.parse name).resolve []) X ∧
      download_image cwd fs name = download_image cwd2 fs name := by
  have hj : UPLOAD_DIR.join name = PyPath.parse name := by
    simp [PyPath.join, h]
  refine ⟨hj, ?_, ?_⟩
  · simp [upload_file, hj, PyPath.resolve, h]
  · simp [download_image, hj, PyPath.resolve, h]

/-- Witness for C10 at `name = "/etc/passwd"`. -/
theorem absolute_filename_discards_storage_dir_holds :
    (PyPath.parse "/etc/passwd").absolute = true ∧
      (UPLOAD_DIR.join "/etc/passwd" = PyPath.parse "/etc/passwd" ∧
        (upload_file ["srv", "app"] [(["etc", "passwd"], [9])] "/etc/passwd" [1]).1 =
          FS.write [(["etc", "passwd"], [9])]
            ((PyPath.parse "/etc/passwd").resolve []) [1] ∧
        download_image ["srv", "app"] [(["etc", "passwd"], [9])] "/etc/passwd" =
          download_image [] [(["etc", "passwd"], [9])] "/etc/passwd") :=
  ⟨by decide,
   absolute_filename_discards_storage_dir ["srv", "app"] [] [(["etc", "passwd"], [9])]
     "/etc/passwd" [1] (by decide)⟩
